import Mathlib

/-!
Shallow embedding of `LayerNormPlugin.cu` (TensorRT LayerNorm plugin example)
and proofs about it.

Conventions of the embedding:
* CUDA `float` values are modelled as elements of a field (instantiated at `ℝ`
  in the theorems); arithmetic is exact.
* Device buffers (`float *`) are modelled as total functions `Nat → α` from
  flat element index to value.
* The hardware intrinsic `rsqrtf` is kept as an explicit function parameter of
  the kernel; the theorems instantiate it with `fun y => (Real.sqrt y)⁻¹`.
* The kernel's shared-memory array `temp[128]` is modelled as a function
  `Nat → α`; each barrier-delimited phase of the kernel is one pure update of
  that function (the phases are race free: every thread writes only `temp[tx]`
  and reads other slots only after a barrier).
* Raw bytes (serialization buffers) are modelled as functions `Nat → Nat`
  from byte offset to byte value; machine integers are `Int`/`Nat`.
-/

section Reduction

variable {α : Type} [AddCommMonoid α]

/-- One pass of the body of the reduction loop of `layerNormKernelV1`
(lines 31-38 and 44-51 of `LayerNormPlugin.cu`): for a given `stride`, each
thread `tx < stride` performs `temp[tx] += temp[tx + stride]`, and the
`__syncthreads()` barrier makes the whole array update one simultaneous step. -/
def reduceStep (temp : Nat → α) (stride : Nat) : Nat → α :=
  fun j => if j < stride then temp j + temp (j + stride) else temp j

/-- The successive values taken by `stride` in
`for (int stride = 64; stride >= 1; stride /= 2)`. -/
def strideList : List Nat := [64, 32, 16, 8, 4, 2, 1]

/-- The whole reduction loop: fold `reduceStep` over the strides 64, …, 1. -/
def reduceTree (temp : Nat → α) : Nat → α :=
  strideList.foldl reduceStep temp

lemma sum_reduceStep (temp : Nat → α) (s : Nat) :
    ∑ j ∈ Finset.range s, reduceStep temp s j = ∑ j ∈ Finset.range (s + s), temp j := by
  rw [Finset.sum_range_add]
  have h1 : ∀ j ∈ Finset.range s, reduceStep temp s j = temp j + temp (s + j) := by
    intro j hj
    have hs : j < s := Finset.mem_range.mp hj
    simp [reduceStep, hs, Nat.add_comm]
  rw [Finset.sum_congr rfl h1, Finset.sum_add_distrib]

/-- After the seven halving steps, slot 0 of the shared accumulator holds the
sum of all 128 initial slot values. -/
lemma reduceTree_zero (temp : Nat → α) :
    reduceTree temp 0 = ∑ j ∈ Finset.range 128, temp j := by
  have key : ∀ (t : Nat → α) (s r : Nat), r = s + s →
      ∑ j ∈ Finset.range s, reduceStep t s j = ∑ j ∈ Finset.range r, t j := by
    intro t s r hr
    subst hr
    exact sum_reduceStep t s
  have h0 : ∀ t : Nat → α, reduceStep t 1 0 = ∑ j ∈ Finset.range 1, reduceStep t 1 j :=
    fun t => (Finset.sum_range_one _).symm
  calc reduceTree temp 0
      = reduceStep (reduceStep (reduceStep (reduceStep (reduceStep (reduceStep
          (reduceStep temp 64) 32) 16) 8) 4) 2) 1 0 := rfl
    _ = ∑ j ∈ Finset.range 1, reduceStep (reduceStep (reduceStep (reduceStep (reduceStep
          (reduceStep (reduceStep temp 64) 32) 16) 8) 4) 2) 1 j := h0 _
    _ = ∑ j ∈ Finset.range 2, reduceStep (reduceStep (reduceStep (reduceStep (reduceStep
          (reduceStep temp 64) 32) 16) 8) 4) 2 j := key _ 1 2 rfl
    _ = ∑ j ∈ Finset.range 4, reduceStep (reduceStep (reduceStep (reduceStep
          (reduceStep temp 64) 32) 16) 8) 4 j := key _ 2 4 rfl
    _ = ∑ j ∈ Finset.range 8, reduceStep (reduceStep (reduceStep
          (reduceStep temp 64) 32) 16) 8 j := key _ 4 8 rfl
    _ = ∑ j ∈ Finset.range 16, reduceStep (reduceStep (reduceStep temp 64) 32) 16 j :=
          key _ 8 16 rfl
    _ = ∑ j ∈ Finset.range 32, reduceStep (reduceStep temp 64) 32 j := key _ 16 32 rfl
    _ = ∑ j ∈ Finset.range 64, reduceStep temp 64 j := key _ 32 64 rfl
    _ = ∑ j ∈ Finset.range 128, temp j := key _ 64 128 rfl

/-- Splitting a sum over 256 indices into the 128 pairwise sums formed by the
128 worker threads. -/
lemma sum_double (g : Nat → α) :
    ∑ j ∈ Finset.range 128, (g j + g (128 + j)) = ∑ j ∈ Finset.range 256, g j := by
  rw [Finset.sum_add_distrib, show (256 : Nat) = 128 + 128 from rfl, Finset.sum_range_add]

end Reduction

section Kernel

variable {α : Type} [Field α]

/-- Line 26 of the kernel: `value0 = pInput[index]` with
`index = blockIdx.x * 256 + threadIdx.x`; `v` is the block index, `tx` the
thread index. -/
def threadLoad0 (pInput : Nat → α) (v tx : Nat) : α :=
  pInput (v * 256 + tx)

/-- Line 27 of the kernel: `value1 = pInput[index + 128]`. -/
def threadLoad1 (pInput : Nat → α) (v tx : Nat) : α :=
  pInput (v * 256 + tx + 128)

/-- Line 28: the first filling of the shared accumulator,
`temp[tx] = value0 + value1`. -/
def tempSum (pInput : Nat → α) (v : Nat) : Nat → α :=
  fun tx => threadLoad0 pInput v tx + threadLoad1 pInput v tx

/-- Line 39: `mean = temp[0] / 256` after the first reduction loop. -/
def kernelMean (pInput : Nat → α) (v : Nat) : α :=
  reduceTree (tempSum pInput v) 0 / 256

/-- Line 42: the second filling of the shared accumulator,
`temp[tx] = (value0 - mean) * (value0 - mean) + (value1 - mean) * (value1 - mean)`. -/
def tempSqDev (pInput : Nat → α) (v : Nat) : Nat → α :=
  fun tx =>
    (threadLoad0 pInput v tx - kernelMean pInput v) *
        (threadLoad0 pInput v tx - kernelMean pInput v) +
      (threadLoad1 pInput v tx - kernelMean pInput v) *
        (threadLoad1 pInput v tx - kernelMean pInput v)

/-- Line 52: `var = temp[0] / 256` after the second reduction loop. -/
def kernelVar (pInput : Nat → α) (v : Nat) : α :=
  reduceTree (tempSqDev pInput v) 0 / 256

/-- Lines 55-56 of `layerNormKernelV1`: the value the kernel stores to
`pOutput[blockIdx.x * 256 + i]` for `0 ≤ i < 256`.  The element at local
offset `i < 128` is written by thread `tx = i` as
`pOutput[index] = (value0 - mean) * rsqrtf(var + epsilon)`, and the element at
offset `i ≥ 128` by thread `tx = i - 128` as
`pOutput[index + 128] = (value1 - mean) * rsqrtf(var + epsilon)`. -/
def layerNormKernelV1 (rsqrtf : α → α) (pInput : Nat → α) (epsilon : α) (v : Nat) :
    Nat → α :=
  fun i =>
    if i < 128 then
      (threadLoad0 pInput v i - kernelMean pInput v) *
        rsqrtf (kernelVar pInput v + epsilon)
    else
      (threadLoad1 pInput v (i - 128) - kernelMean pInput v) *
        rsqrtf (kernelVar pInput v + epsilon)

/-- Slot 0 after the first reduction holds the sum of all 256 elements of
vector `v`. -/
lemma reduceTree_tempSum (x : Nat → α) (v : Nat) :
    reduceTree (tempSum x v) 0 = ∑ j ∈ Finset.range 256, x (v * 256 + j) := by
  rw [reduceTree_zero]
  rw [← sum_double (fun j => x (v * 256 + j))]
  apply Finset.sum_congr rfl
  intro j hj
  show tempSum x v j = x (v * 256 + j) + x (v * 256 + (128 + j))
  simp only [tempSum, threadLoad0, threadLoad1]
  have h : v * 256 + j + 128 = v * 256 + (128 + j) := by omega
  rw [h]

/-- The kernel's `mean` is the arithmetic mean of the 256 elements of
vector `v`. -/
lemma kernelMean_eq (x : Nat → α) (v : Nat) :
    kernelMean x v = (∑ j ∈ Finset.range 256, x (v * 256 + j)) / 256 := by
  rw [kernelMean, reduceTree_tempSum]

/-- Slot 0 after the second reduction holds the sum of squared deviations of
the 256 elements of vector `v` from the kernel's mean. -/
lemma reduceTree_tempSqDev (x : Nat → α) (v : Nat) :
    reduceTree (tempSqDev x v) 0 =
      ∑ j ∈ Finset.range 256, (x (v * 256 + j) - kernelMean x v) ^ 2 := by
  rw [reduceTree_zero]
  rw [← sum_double (fun j => (x (v * 256 + j) - kernelMean x v) ^ 2)]
  apply Finset.sum_congr rfl
  intro j hj
  show tempSqDev x v j =
    (x (v * 256 + j) - kernelMean x v) ^ 2 +
      (x (v * 256 + (128 + j)) - kernelMean x v) ^ 2
  simp only [tempSqDev, threadLoad0, threadLoad1]
  have h : v * 256 + j + 128 = v * 256 + (128 + j) := by omega
  rw [h]
  ring

/-- The kernel's `var` is the population variance (divisor 256) of vector `v`
around the kernel's mean. -/
lemma kernelVar_eq (x : Nat → α) (v : Nat) :
    kernelVar x v =
      (∑ j ∈ Finset.range 256, (x (v * 256 + j) - kernelMean x v) ^ 2) / 256 := by
  rw [kernelVar, reduceTree_tempSqDev]

end Kernel

/-! ### The operator adapter (`namespace nvinfer1` part of `LayerNormPlugin.cu`) -/

/-- TensorRT `DataType` enumeration (the values the plugin can meet). -/
inductive DataType
  | kFLOAT
  | kHALF
  | kINT8
  | kINT32
  | kBOOL
deriving DecidableEq

/-- TensorRT `TensorFormat` enumeration (the values the plugin can meet). -/
inductive TensorFormat
  | kLINEAR
  | kCHW2
  | kHWC8
  | kCHW4
  | kCHW16
  | kCHW32
deriving DecidableEq

/-- TensorRT `Dims`: a dimension count and an array `d` of extents (the C
struct carries a fixed array `int32_t d[8]`; entries at positions `≥ nbDims`
are present but meaningless). -/
structure Dims where
  nbDims : Nat
  d : Nat → Int

/-- TensorRT `PluginTensorDesc` (the `scale` member, unused by this plugin,
is omitted). -/
structure PluginTensorDesc where
  dims : Dims
  type : DataType
  format : TensorFormat

/-- The state of a `LayerNormPlugin` object: `name_` and `namespace_`
(strings), and the member `m_` of C type `struct { float epsilon; }`,
represented by the bit pattern of its single 32-bit float. -/
structure LayerNormPlugin where
  name_ : String
  namespace_ : String
  epsilonBits : Nat
deriving DecidableEq

/-- Value of `sizeof(m_)`, where `m_` is a struct holding exactly one
32-bit float: 4 bytes. -/
def sizeof_m : Nat := 4

/-- The deserializing constructor
`LayerNormPlugin(const std::string &name, const void *buffer, size_t length)`
(lines 69-74): it runs `memcpy(&m_, buffer, sizeof(m_))`, reading exactly the
first `sizeof(m_) = 4` bytes of `buffer` (little-endian float), and never
consults `length`.  `namespace_` is default-constructed empty. -/
def LayerNormPlugin.fromBuffer (name : String) (buffer : Nat → Nat) (length : Nat) :
    LayerNormPlugin :=
  { name_ := name
    namespace_ := ""
    epsilonBits := buffer 0 + 256 * buffer 1 + 65536 * buffer 2 + 16777216 * buffer 3 }

/-- `getSerializationSize` (lines 162-166): returns `sizeof(m_)`. -/
def LayerNormPlugin.getSerializationSize (p : LayerNormPlugin) : Nat :=
  sizeof_m

/-- `serialize` (lines 168-173): `memcpy(buffer, &m_, sizeof(m_))` — writes the
4 bytes of the configuration into the start of `buffer`, leaving the rest of
the buffer as it was. -/
def LayerNormPlugin.serialize (p : LayerNormPlugin) (buffer : Nat → Nat) : Nat → Nat :=
  fun i => if i < 4 then p.epsilonBits / 256 ^ i % 256 else buffer i

/-- `supportsFormatCombination` (lines 107-120): the body of the `switch` on
`pos`.  Position 0 demands float input in linear format; position 1 demands
type and format equal to those of position 0; any other position falls to the
`default` branch and is rejected. -/
def supportsFormatCombination (pos : Int) (inOut : Nat → PluginTensorDesc)
    (nbInputs nbOutputs : Int) : Bool :=
  if pos = 0 then
    decide ((inOut 0).type = DataType.kFLOAT ∧ (inOut 0).format = TensorFormat.kLINEAR)
  else if pos = 1 then
    decide ((inOut 1).type = (inOut 0).type ∧ (inOut 1).format = (inOut 0).format)
  else
    false

/-- Method form of `supportsFormatCombination`, with the receiver object
threaded through explicitly: the body only inspects its arguments and returns
the object state unchanged (the `WHERE_AM_I()` debug macro, whose definition
lives in the header that is not part of the translation unit shown, is
modelled from the spec as a no-op: the spec declares the predicate
"purely declarative — no side effects"). -/
def LayerNormPlugin.supportsFormatCombinationM (p : LayerNormPlugin) (pos : Int)
    (inOut : Nat → PluginTensorDesc) (nbInputs nbOutputs : Int) :
    Bool × LayerNormPlugin :=
  (supportsFormatCombination pos inOut nbInputs nbOutputs, p)

/-- `getNbOutputs` (lines 89-93): the plugin declares exactly one output, so
the positions probed during negotiation are 0 (the input) and 1 (the output). -/
def LayerNormPlugin.getNbOutputs (p : LayerNormPlugin) : Int := 1

/-- `getWorkspaceSize` (lines 128-132): the declared external workspace is 0. -/
def LayerNormPlugin.getWorkspaceSize (p : LayerNormPlugin) : Nat := 0

/-- The launch configuration and arguments of the CUDA kernel launch
`layerNormKernelV1<<<nBlock, 128, 0, stream>>>(..., m_.epsilon)` issued by
`enqueue`. -/
structure KernelLaunch where
  gridDim : Int
  blockDim : Nat
  sharedMemBytes : Nat
  stream : Nat
  epsilonBits : Nat
deriving DecidableEq

/-- `enqueue` (lines 134-141): computes
`nBlock = inputDesc[0].dims.d[0] * inputDesc[0].dims.d[1]`, issues the launch
`layerNormKernelV1<<<nBlock, 128, 0, stream>>>` and returns the status `0`.
The result is the pair (issued launch, returned status).  The argument
`launchFailed` records whether the asynchronous launch fails in the runtime
environment; the source returns `0` without inspecting any error code, so
nothing in the result depends on it. -/
def LayerNormPlugin.enqueue (p : LayerNormPlugin) (inputDesc : Nat → PluginTensorDesc)
    (stream : Nat) (launchFailed : Bool) : KernelLaunch × Int :=
  let nBlock : Int := (inputDesc 0).dims.d 0 * (inputDesc 0).dims.d 1
  ({ gridDim := nBlock
     blockDim := 128
     sharedMemBytes := 0
     stream := stream
     epsilonBits := p.epsilonBits }, 0)

/-- The product of all leading (non-feature) dimensions of a tensor: the
quantity the spec says `enqueue` uses as the group count. -/
def leadingDimsProduct (dims : Dims) : Int :=
  ∏ i ∈ Finset.range (dims.nbDims - 1), dims.d i

/-- IEEE-754 single-precision bit pattern of the literal `1.0e-5f`, the
default value of `epsilon` in `createPlugin` (line 233). -/
def epsilonDefaultBits : Nat := 925353388

/-- `LayerNormPluginV1Creator::createPlugin` (lines 230-244): starts from the
default `epsilon = 1.0e-5f`, walks the field collection in order, and for each
field whose name is the recognized key `"epsilon"` overwrites the value with
the field's float data; all other fields are skipped.  A field is modelled as
(name, float-data bit pattern). -/
def createPlugin (name : String) (fc : List (String × Nat)) : LayerNormPlugin :=
  { name_ := name
    namespace_ := ""
    epsilonBits :=
      fc.foldl (fun eps f => if f.1 = "epsilon" then f.2 else eps) epsilonDefaultBits }

/-- `LayerNormPluginV1Creator::deserializePlugin` (lines 246-250): forwards to
the deserializing constructor. -/
def deserializePlugin (name : String) (serialData : Nat → Nat) (serialLength : Nat) :
    LayerNormPlugin :=
  LayerNormPlugin.fromBuffer name serialData serialLength

/-! ### Claim theorems: the kernel -/

/-- C1: for every input batch (modelled as exact reals), every epsilon, every
vector `v` and element index `i < 256`, the kernel output equals
`(x[v,i] - mean[v]) / sqrt(var[v] + ε)`, where `mean[v]` is the arithmetic
mean of the 256 elements of vector `v` and `var[v]` is the population variance
(mean of squared deviations from `mean[v]`, divisor 256, not 255). -/
theorem C1_kernel_output_normalized (x : Nat → ℝ) (epsilon : ℝ) (v i : Nat)
    (hi : i < 256) :
    layerNormKernelV1 (fun y => (Real.sqrt y)⁻¹) x epsilon v i =
      (x (v * 256 + i) - (∑ j ∈ Finset.range 256, x (v * 256 + j)) / 256) /
        Real.sqrt
          ((∑ j ∈ Finset.range 256,
              (x (v * 256 + j) - (∑ k ∈ Finset.range 256, x (v * 256 + k)) / 256) ^ 2) /
              256
            + epsilon) := by
  have hm := kernelMean_eq x v
  have hv := kernelVar_eq x v
  by_cases h : i < 128
  · simp only [layerNormKernelV1, if_pos h, threadLoad0]
    rw [hv, hm, ← div_eq_mul_inv]
  · simp only [layerNormKernelV1, if_neg h, threadLoad1]
    have hidx : v * 256 + (i - 128) + 128 = v * 256 + i := by omega
    rw [hidx, hv, hm, ← div_eq_mul_inv]

/-- Witness for C1 at the concrete input `x ≡ 0`, `ε = 1`, `v = 0`, `i = 0`. -/
theorem C1_kernel_output_normalized_witness :
    (0 : Nat) < 256 ∧
    layerNormKernelV1 (fun y => (Real.sqrt y)⁻¹) (fun _ => (0 : ℝ)) 1 0 0 =
      ((0 : ℝ) - (∑ j ∈ Finset.range 256, (0 : ℝ)) / 256) /
        Real.sqrt
          ((∑ j ∈ Finset.range 256,
              ((0 : ℝ) - (∑ k ∈ Finset.range 256, (0 : ℝ)) / 256) ^ 2) / 256 + 1) :=
  ⟨by norm_num, C1_kernel_output_normalized (fun _ => (0 : ℝ)) 1 0 0 (by norm_num)⟩

/-- C4: the binary-tree reduction loop, with `stride` taking the values
64, 32, 16, 8, 4, 2, 1, leaves in slot 0 the sum of all 128 initial slot
values of the shared accumulator, whatever they are; on the kernel's first
pass the initial slots are the 128 pairwise sums of loaded elements, so slot 0
then holds the sum over all 256 elements of the vector, and `mean` is that sum
divided by 256. -/
theorem C4_tree_reduction_sum (temp : Nat → ℝ) (x : Nat → ℝ) (v : Nat) :
    strideList = [64, 32, 16, 8, 4, 2, 1] ∧
    reduceTree temp 0 = ∑ j ∈ Finset.range 128, temp j ∧
    reduceTree (tempSum x v) 0 = ∑ j ∈ Finset.range 256, x (v * 256 + j) ∧
    kernelMean x v = (∑ j ∈ Finset.range 256, x (v * 256 + j)) / 256 :=
  ⟨rfl, reduceTree_zero temp, reduceTree_tempSum x v, kernelMean_eq x v⟩

/-- C5: the kernel's variance is computed by the two-pass method: the shared
slots are refilled with squared deviations from the already-computed mean,
summed by the same tree reduction, and divided by 256 — so `var` equals the
mean of squared deviations from the kernel's mean. -/
theorem C5_variance_two_pass (x : Nat → ℝ) (v : Nat) :
    reduceTree (tempSqDev x v) 0 =
        ∑ j ∈ Finset.range 256, (x (v * 256 + j) - kernelMean x v) ^ 2 ∧
    kernelVar x v =
        (∑ j ∈ Finset.range 256, (x (v * 256 + j) - kernelMean x v) ^ 2) / 256 :=
  ⟨reduceTree_tempSqDev x v, kernelVar_eq x v⟩

/-! ### Claim theorems: launch geometry, status, negotiation -/

/-- A concrete 2-D input shape: a batch of 4 vectors of width 256. -/
def dims4x256 : Dims :=
  ⟨2, fun i => if i = 0 then 4 else if i = 1 then 256 else 0⟩

/-- A concrete descriptor: shape (4, 256), float, linear format. -/
def desc4x256 : PluginTensorDesc :=
  ⟨dims4x256, DataType.kFLOAT, TensorFormat.kLINEAR⟩

/-- A concrete plugin instance with the default epsilon. -/
def pluginLN : LayerNormPlugin := ⟨"ln", "", epsilonDefaultBits⟩

/-- C2 counterexample: for the concrete 2-dimensional input of shape (4, 256),
the product of all leading (non-feature) dimensions is 4, but `enqueue`
launches `d[0] * d[1] = 1024` groups — the claimed group-count formula fails
for tensors that are not 3-dimensional. -/
theorem C2_counterexample :
    ¬ ((pluginLN.enqueue (fun _ => desc4x256) 0 false).1.gridDim =
        leadingDimsProduct desc4x256.dims) := by
  simp only [LayerNormPlugin.enqueue, leadingDimsProduct, desc4x256, dims4x256]
  norm_num [Finset.prod_range_one]

/-- C2 (amended): `enqueue` computes the group count as
`d[0] * d[1]`, the product of the first two dimensions of the input — which
equals the product of all leading (non-feature) dimensions exactly when the
input tensor is 3-dimensional — and launches the kernel with that many groups
and 128 threads per group; each thread `t < 128` of group `v` loads exactly
the two elements at offsets `t` and `t + 128` of vector `v` and writes its two
outputs at the same offsets. -/
theorem C2_amended_launch_geometry (p : LayerNormPlugin)
    (inputDesc : Nat → PluginTensorDesc) (stream : Nat) (launchFailed : Bool)
    (rs : ℝ → ℝ) (x : Nat → ℝ) (epsilon : ℝ) (v t : Nat) (ht : t < 128) :
    (p.enqueue inputDesc stream launchFailed).1.gridDim =
        (inputDesc 0).dims.d 0 * (inputDesc 0).dims.d 1 ∧
    ((inputDesc 0).dims.nbDims = 3 →
      (p.enqueue inputDesc stream launchFailed).1.gridDim =
        leadingDimsProduct (inputDesc 0).dims) ∧
    (p.enqueue inputDesc stream launchFailed).1.blockDim = 128 ∧
    threadLoad0 x v t = x (v * 256 + t) ∧
    threadLoad1 x v t = x (v * 256 + t + 128) ∧
    layerNormKernelV1 rs x epsilon v t =
        (x (v * 256 + t) - kernelMean x v) * rs (kernelVar x v + epsilon) ∧
    layerNormKernelV1 rs x epsilon v (t + 128) =
        (x (v * 256 + t + 128) - kernelMean x v) * rs (kernelVar x v + epsilon) := by
  refine ⟨rfl, ?_, rfl, rfl, rfl, ?_, ?_⟩
  · intro h3
    simp only [leadingDimsProduct, h3]
    show _ = ∏ i ∈ Finset.range (1 + 1), (inputDesc 0).dims.d i
    rw [Finset.prod_range_succ, Finset.prod_range_one]
    rfl
  · simp only [layerNormKernelV1, if_pos ht, threadLoad0]
  · have hn : ¬ (t + 128 < 128) := by omega
    simp only [layerNormKernelV1, if_neg hn, threadLoad1, Nat.add_sub_cancel]

/-- Witness for the amended C2 at a concrete call (thread 0 of a concrete
launch over the (4, 256) descriptor). -/
theorem C2_amended_launch_geometry_witness :
    (0 : Nat) < 128 ∧
    (pluginLN.enqueue (fun _ => desc4x256) 7 false).1.blockDim = 128 :=
  ⟨by decide, (C2_amended_launch_geometry pluginLN (fun _ => desc4x256) 7 false
      (fun y => y) (fun _ => (0 : ℝ)) 0 0 0 (by decide)).2.2.1⟩

/-- C3 counterexample: at a concrete call where the asynchronous kernel launch
fails (`launchFailed = true`), `enqueue` still returns status 0 — a launch
failure is not surfaced to the caller as a non-zero return status. -/
theorem C3_counterexample :
    (pluginLN.enqueue (fun _ => desc4x256) 0 true).2 = 0 := rfl

/-- C3 (amended): `enqueue` returns a status immediately after issuing the
launch without blocking for kernel completion, and that status is
unconditionally 0 — for every input and every launch outcome, including
failure; launch failures are not surfaced through the return value. -/
theorem C3_amended_enqueue_status (p : LayerNormPlugin)
    (inputDesc : Nat → PluginTensorDesc) (stream : Nat) (launchFailed : Bool) :
    (p.enqueue inputDesc stream launchFailed).2 = 0 := rfl

/-- C6: `supportsFormatCombination` accepts position 0 exactly when the input
is single-precision float in linear layout, and accepts position 1 (the only
output — the plugin declares one output) exactly when its type and format both
equal those of position 0; in particular a combination whose output type
differs from the input type is rejected, and the all-float/linear combination
is accepted at both positions. -/
theorem C6_supportsFormatCombination_spec (inOut : Nat → PluginTensorDesc)
    (nbInputs nbOutputs : Int) :
    (supportsFormatCombination 0 inOut nbInputs nbOutputs = true ↔
      ((inOut 0).type = DataType.kFLOAT ∧ (inOut 0).format = TensorFormat.kLINEAR)) ∧
    (supportsFormatCombination 1 inOut nbInputs nbOutputs = true ↔
      ((inOut 1).type = (inOut 0).type ∧ (inOut 1).format = (inOut 0).format)) ∧
    ((inOut 1).type ≠ (inOut 0).type →
      supportsFormatCombination 1 inOut nbInputs nbOutputs = false) ∧
    ((inOut 0).type = DataType.kFLOAT → (inOut 0).format = TensorFormat.kLINEAR →
      (inOut 1).type = DataType.kFLOAT → (inOut 1).format = TensorFormat.kLINEAR →
      supportsFormatCombination 0 inOut nbInputs nbOutputs = true ∧
      supportsFormatCombination 1 inOut nbInputs nbOutputs = true) := by
  refine ⟨?_, ?_, ?_, ?_⟩
  · norm_num [supportsFormatCombination]
  · norm_num [supportsFormatCombination]
  · intro hne
    have hnot : ¬ ((inOut 1).type = (inOut 0).type ∧ (inOut 1).format = (inOut 0).format) :=
      fun hc => hne hc.1
    norm_num [supportsFormatCombination, hnot]
  · intro h1 h2 h3 h4
    norm_num [supportsFormatCombination, h1, h2, h3, h4]

/-- Witness for C6: the all-float/linear candidate set is accepted at both
positions. -/
theorem C6_supportsFormatCombination_spec_witness :
    (desc4x256.type = DataType.kFLOAT ∧ desc4x256.format = TensorFormat.kLINEAR) ∧
    supportsFormatCombination 0 (fun _ => desc4x256) 1 1 = true ∧
    supportsFormatCombination 1 (fun _ => desc4x256) 1 1 = true :=
  ⟨⟨rfl, rfl⟩,
    (C6_supportsFormatCombination_spec (fun _ => desc4x256) 1 1).2.2.2 rfl rfl rfl rfl⟩

/-! ### Claim theorems: serialization, creator, purity -/

/-- Folding the `createPlugin` parameter loop over fields none of which is
named `"epsilon"` leaves the accumulated epsilon unchanged. -/
lemma foldlEps_no_eps (l : List (String × Nat)) (acc : Nat)
    (h : ∀ f ∈ l, f.1 ≠ "epsilon") :
    l.foldl (fun eps f => if f.1 = "epsilon" then f.2 else eps) acc = acc := by
  induction l generalizing acc with
  | nil => rfl
  | cons a l ih =>
    have ha : a.1 ≠ "epsilon" := h a (List.mem_cons_self a l)
    simp only [List.foldl_cons, if_neg ha]
    exact ih acc (fun f hf => h f (List.mem_cons_of_mem a hf))

/-- The `createPlugin` parameter loop only looks at fields named `"epsilon"`:
filtering the others out does not change the result. -/
lemma foldlEps_filter (l : List (String × Nat)) (acc : Nat) :
    l.foldl (fun eps f => if f.1 = "epsilon" then f.2 else eps) acc =
      (l.filter (fun f => f.1 = "epsilon")).foldl
        (fun eps f => if f.1 = "epsilon" then f.2 else eps) acc := by
  induction l generalizing acc with
  | nil => rfl
  | cons a l ih =>
    by_cases ha : a.1 = "epsilon"
    · rw [List.foldl_cons, if_pos ha, List.filter_cons_of_pos (by simp [ha]),
        List.foldl_cons, if_pos ha]
      exact ih a.2
    · rw [List.foldl_cons, if_neg ha, List.filter_cons_of_neg (by simp [ha])]
      exact ih acc

/-- C7: serializing a plugin's configuration and deserializing the resulting
buffer reproduces the configuration exactly (same epsilon bit pattern), so the
kernel output computed from the deserialized configuration is identical to the
original's for every input under every interpretation of the bit pattern; the
declared serialization size is `sizeof(m_) = 4` bytes, one 32-bit float. -/
theorem C7_serialization_roundtrip (p : LayerNormPlugin) (buffer : Nat → Nat)
    (name : String) (length : Nat) (h : p.epsilonBits < 2 ^ 32) :
    (LayerNormPlugin.fromBuffer name (p.serialize buffer) length).epsilonBits =
        p.epsilonBits ∧
    p.getSerializationSize = sizeof_m ∧
    sizeof_m = 4 ∧
    (∀ (decodeEps : Nat → ℝ) (rs : ℝ → ℝ) (x : Nat → ℝ) (v i : Nat),
      layerNormKernelV1 rs x
          (decodeEps
            (LayerNormPlugin.fromBuffer name (p.serialize buffer) length).epsilonBits)
          v i =
        layerNormKernelV1 rs x (decodeEps p.epsilonBits) v i) := by
  have hb : (LayerNormPlugin.fromBuffer name (p.serialize buffer) length).epsilonBits =
      p.epsilonBits := by
    simp only [LayerNormPlugin.fromBuffer, LayerNormPlugin.serialize]
    norm_num
    omega
  exact ⟨hb, rfl, rfl, fun decodeEps rs x v i => by rw [hb]⟩

/-- Witness for C7 at the concrete plugin with the default epsilon bits. -/
theorem C7_serialization_roundtrip_witness :
    pluginLN.epsilonBits < 2 ^ 32 ∧
    (LayerNormPlugin.fromBuffer "ln" (pluginLN.serialize (fun _ => 0)) 4).epsilonBits =
      pluginLN.epsilonBits :=
  ⟨by decide, (C7_serialization_roundtrip pluginLN (fun _ => 0) "ln" 4 (by decide)).1⟩

/-- C8: `createPlugin` produces an instance with the default epsilon
(`1.0e-5f`) when no field named `"epsilon"` is present; when an `"epsilon"`
field is present its value is taken; and fields with any other name are
ignored — the result only depends on the `"epsilon"`-named fields. -/
theorem C8_createPlugin_fields (name : String) (fc : List (String × Nat)) :
    ((∀ f ∈ fc, f.1 ≠ "epsilon") →
      (createPlugin name fc).epsilonBits = epsilonDefaultBits) ∧
    (∀ pre val post, fc = pre ++ ("epsilon", val) :: post →
      (∀ f ∈ post, f.1 ≠ "epsilon") →
      (createPlugin name fc).epsilonBits = val) ∧
    (createPlugin name fc =
      createPlugin name (fc.filter (fun f => f.1 = "epsilon"))) ∧
    (createPlugin name fc).name_ = name := by
  refine ⟨?_, ?_, ?_, rfl⟩
  · intro h
    exact foldlEps_no_eps fc epsilonDefaultBits h
  · intro pre val post hfc hpost
    subst hfc
    show (pre ++ ("epsilon", val) :: post).foldl
        (fun eps f => if f.1 = "epsilon" then f.2 else eps) epsilonDefaultBits = val
    rw [List.foldl_append, List.foldl_cons, if_pos rfl]
    exact foldlEps_no_eps post val hpost
  · show LayerNormPlugin.mk _ _ _ = LayerNormPlugin.mk _ _ _
    rw [foldlEps_filter fc epsilonDefaultBits]

/-- Witness for C8: a field collection with an unknown field before and after
the `"epsilon"` field yields exactly the `"epsilon"` field's value. -/
theorem C8_createPlugin_fields_witness :
    (∀ f ∈ [(("beta" : String), (7 : Nat))], f.1 ≠ "epsilon") ∧
    (createPlugin "ln" [("alpha", 1), ("epsilon", 42), ("beta", 7)]).epsilonBits = 42 :=
  ⟨by decide,
    (C8_createPlugin_fields "ln" [("alpha", 1), ("epsilon", 42), ("beta", 7)]).2.1
      [("alpha", 1)] 42 [("beta", 7)] rfl (by decide)⟩

/-- C9: the negotiation predicate is a pure function of its arguments: invoked
on a plugin object it returns the object state unchanged, its boolean result
does not depend on the object state, and invoking it again (in the state left
by a first invocation) returns the same boolean. -/
theorem C9_supportsFormatCombination_pure (p q : LayerNormPlugin) (pos : Int)
    (inOut : Nat → PluginTensorDesc) (nbInputs nbOutputs : Int) :
    (p.supportsFormatCombinationM pos inOut nbInputs nbOutputs).2 = p ∧
    (p.supportsFormatCombinationM pos inOut nbInputs nbOutputs).1 =
      (q.supportsFormatCombinationM pos inOut nbInputs nbOutputs).1 ∧
    ((p.supportsFormatCombinationM pos inOut nbInputs
        nbOutputs).2.supportsFormatCombinationM pos inOut nbInputs nbOutputs).1 =
      (p.supportsFormatCombinationM pos inOut nbInputs nbOutputs).1 :=
  ⟨rfl, rfl, rfl⟩

/-- C10: the deserializing constructor (and hence `deserializePlugin`) reads
exactly the first `sizeof(m_) = 4` bytes of the buffer and ignores the length
argument entirely: two calls on buffers agreeing on bytes 0..3, with any two
length values, construct identical instances. -/
theorem C10_deserialize_ignores_length (name : String) (b1 b2 : Nat → Nat)
    (len1 len2 : Nat) (h : ∀ i, i < 4 → b1 i = b2 i) :
    deserializePlugin name b1 len1 = deserializePlugin name b2 len2 ∧
    LayerNormPlugin.fromBuffer name b1 len1 = LayerNormPlugin.fromBuffer name b2 len2 := by
  have hb : LayerNormPlugin.fromBuffer name b1 len1 =
      LayerNormPlugin.fromBuffer name b2 len2 := by
    simp only [LayerNormPlugin.fromBuffer]
    rw [h 0 (by norm_num), h 1 (by norm_num), h 2 (by norm_num), h 3 (by norm_num)]
  exact ⟨hb, hb⟩

/-- Witness for C10: a zero buffer read with two very different length
arguments (0 and 999) yields the same instance. -/
theorem C10_deserialize_ignores_length_witness :
    (∀ i : Nat, i < 4 → (0 : Nat) = 0) ∧
    deserializePlugin "ln" (fun _ => 0) 0 = deserializePlugin "ln" (fun _ => 0) 999 :=
  ⟨fun i hi => rfl,
    (C10_deserialize_ignores_length "ln" (fun _ => 0) (fun _ => 0) 0 999
      (fun i hi => rfl)).1⟩
